import Mathlib

/-!
Shallow embedding of the decision logic of `src/api/index.py` (a Flask
service wrapping yt-dlp / youtube-search): duration normalization,
size formatting, format classification, the search/url resolver
dispatch, and the per-route caching behavior.

Modelling conventions:
* Python strings are Lean `String`s; the embedding models CPython string
  semantics for ASCII data (`str.strip`, `str.split`, `int(...)`,
  `str.isdigit`).
* Python `None` and absent dict keys are `Option.none`; Python's
  falsiness of `None`, `""` and `0` is modelled explicitly at each use.
* A Python function that can raise is embedded as an `Option`-valued
  function, `none` standing for a raised exception.
-/

namespace YtApi

/-- ASCII whitespace recognised by CPython's `str.strip()`. -/
def pyIsSpace (c : Char) : Bool :=
  c = ' ' || c = '\t' || c = '\n' || c = '\r' || c = '\x0b' || c = '\x0c'

/-- `str.strip()` on the character list: drop whitespace from both ends. -/
def pyStripChars (l : List Char) : List Char :=
  ((l.dropWhile pyIsSpace).reverse.dropWhile pyIsSpace).reverse

/-- CPython `s.strip()` (ASCII whitespace). -/
def pyStrip (s : String) : String :=
  String.mk (pyStripChars s.data)

/-- CPython `s.split(':')`: split at every colon, keeping empty pieces;
the result is always nonempty. -/
def splitOnColon : List Char → List (List Char)
  | [] => [[]]
  | c :: rest =>
      if c = ':' then [] :: splitOnColon rest
      else
        match splitOnColon rest with
        | [] => [[c]]
        | p :: ps => (c :: p) :: ps

/-- Two consecutive underscores somewhere in the list (CPython's integer
literal grammar rejects them). -/
def hasDoubleUnderscore : List Char → Bool
  | c1 :: c2 :: rest => (c1 = '_' && c2 = '_') || hasDoubleUnderscore (c2 :: rest)
  | _ => false

/-- Digit-group value for CPython `int()`: decimal digits with optional
single underscores strictly between digits; `none` when the grammar is
violated (empty, stray underscore, non-digit). -/
def pyDigitsVal (l : List Char) : Option Nat :=
  if l = [] then none
  else if l.head? = some '_' || l.getLast? = some '_' || hasDoubleUnderscore l then none
  else if l.all (fun c => c.isDigit || c = '_') then
    some ((l.filter (fun c => c ≠ '_')).foldl (fun a c => a * 10 + (c.toNat - 48)) 0)
  else none

/-- CPython `int(s)` on an ASCII string: surrounding whitespace stripped,
one optional sign, then a digit group; `none` models a raised
`ValueError`. -/
def pyInt (s : String) : Option Int :=
  match pyStripChars s.data with
  | [] => none
  | c :: rest =>
      if c = '+' then (pyDigitsVal rest).map Int.ofNat
      else if c = '-' then (pyDigitsVal rest).map (fun n => -(n : Int))
      else (pyDigitsVal (c :: rest)).map Int.ofNat

/-- CPython `s.isdigit()` restricted to ASCII: nonempty and all
characters are decimal digits. -/
def pyIsDigit (s : String) : Bool :=
  s.data ≠ [] && s.data.all Char.isDigit

/-- `parts` as line 58 computes it:
`duration_str.split(':') if duration_str else []`. -/
def pyDurationParts (s : String) : List String :=
  if s = "" then [] else (splitOnColon s.data).map String.mk

/-- `to_iso_duration` (src/api/index.py lines 57-71).  The Python body
calls `int(...)` on the pieces of a 2- or 3-part split without any
guard, so those calls can raise `ValueError`; the embedding returns
`none` exactly on the raising inputs. -/
def to_iso_duration (duration_str : String) : Option String :=
  match pyDurationParts duration_str with
  | [h, m, s] => do
      let hv ← pyInt h
      let mv ← pyInt m
      let sv ← pyInt s
      pure ("PT" ++ (if hv ≠ 0 then toString hv ++ "H" else "") ++
            toString mv ++ "M" ++ toString sv ++ "S")
  | [m, s] => do
      let mv ← pyInt m
      let sv ← pyInt s
      pure ("PT" ++ toString mv ++ "M" ++ toString sv ++ "S")
  | [p] =>
      if pyIsDigit p then (pyInt p).map (fun n => "PT" ++ toString n ++ "S")
      else some "PT0S"
  | _ => some "PT0S"

/-! ## Size formatting (src/api/index.py lines 105-112) -/

/-- A raw stream descriptor as consumed by `build_formats_list`; every
field is optional because the yt-dlp dictionaries may lack any key
(`fmt.get(...)` returns `None` then). -/
structure RawFormat where
  format_id : Option String := none
  ext : Option String := none
  filesize : Option Nat := none
  filesize_approx : Option Nat := none
  acodec : Option String := none
  vcodec : Option String := none
  width : Option Nat := none
  height : Option Nat := none
  fps : Option Nat := none
  abr : Option Nat := none
  asr : Option Nat := none
  url : Option String := none
deriving DecidableEq

/-- Python truthiness of an optional number: `None` and `0` are falsy. -/
def truthyNat : Option Nat → Option Nat
  | some n => if n = 0 then none else some n
  | none => none

/-- `get_size_bytes` (lines 105-106):
`fmt.get('filesize') or fmt.get('filesize_approx') or 0`. -/
def get_size_bytes (f : RawFormat) : Nat :=
  ((truthyNat f.filesize).orElse (fun _ => truthyNat f.filesize_approx)).getD 0

/-- Round `num / den` to the nearest integer, ties to even — the rounding
CPython's `f"{x:.2f}"` applies to the scaled value. -/
def roundHalfEven (num den : Nat) : Nat :=
  let q := num / den
  let r := num % den
  if 2 * r < den then q
  else if 2 * r > den then q + 1
  else if q % 2 = 0 then q else q + 1

/-- Render `n / den` with exactly two decimal places (round half to
even).  This models CPython's `f"{n/den:.2f}"` by exact rational
arithmetic; the two agree on every value the theorems below evaluate
(the intermediate quotient is exactly representable there), the
binary-float double rounding of the Python original is not modelled. -/
def twoDecString (n den : Nat) : String :=
  let c := roundHalfEven (n * 100) den
  toString (c / 100) ++ "." ++ (if c % 100 < 10 then "0" else "") ++ toString (c % 100)

/-- `format_size` (lines 108-112): tiers at `1e9`/`1e6`/`1e3` with `≥`
comparisons, two decimals within a tier, raw byte count below 1000. -/
def format_size (bytes_val : Nat) : String :=
  if bytes_val ≥ 1000000000 then twoDecString bytes_val 1000000000 ++ " GB"
  else if bytes_val ≥ 1000000 then twoDecString bytes_val 1000000 ++ " MB"
  else if bytes_val ≥ 1000 then twoDecString bytes_val 1000 ++ " KB"
  else toString bytes_val ++ " B"

/-! ## Format classification (src/api/index.py lines 114-144) -/

/-- One element of the list `build_formats_list` emits (the dict built
at lines 131-143). -/
structure ClassifiedFormat where
  format_id : Option String
  ext : Option String
  kind : String
  filesize_bytes : Nat
  filesize : String
  width : Option Nat
  height : Option Nat
  fps : Option Nat
  abr : Option Nat
  asr : Option Nat
  url : String
deriving DecidableEq

/-- The per-element body of the loop in `build_formats_list`:
skip when `url` is falsy (absent or empty), compute
`has_v = f.get('vcodec') != 'none'` and `has_a = f.get('acodec') != 'none'`
(note: an *absent* codec compares unequal to `'none'`), classify, skip
when neither, and emit the projected record. -/
def classify_format (f : RawFormat) : Option ClassifiedFormat :=
  match f.url with
  | none => none
  | some u =>
      if u = "" then none
      else
        let has_v := f.vcodec ≠ some "none"
        let has_a := f.acodec ≠ some "none"
        let kind : Option String :=
          if has_v ∧ has_a then some "progressive"
          else if has_v then some "video-only"
          else if has_a then some "audio-only"
          else none
        match kind with
        | none => none
        | some k =>
            let size := get_size_bytes f
            some { format_id := f.format_id, ext := f.ext, kind := k,
                   filesize_bytes := size, filesize := format_size size,
                   width := f.width, height := f.height, fps := f.fps,
                   abr := f.abr, asr := f.asr, url := u }

/-- `build_formats_list` (lines 114-144) on the raw `formats` sequence of
an info record: the loop appends in source order, i.e. a `filterMap`. -/
def build_formats_list (formats : List RawFormat) : List ClassifiedFormat :=
  formats.filterMap classify_format

/-! ## Raw metadata records and the extraction engine -/

/-- A related-video stub as read by the `suggestions` comprehension of
`api_all` (lines 209-214).  `thumbnails` is a list of thumbnail dicts of
which only the `url` field is read, so each element is embedded as that
optional field. -/
structure RelEntry where
  id : Option String := none
  title : Option String := none
  webpage_url : Option String := none
  url : Option String := none
  thumbnails : Option (List (Option String)) := none
deriving DecidableEq

/-- The fields of a yt-dlp info dict the routes read.  `average_rating`
(a float passed through verbatim by `api_meta`/`api_all`) is not
modelled; no claim touches it. -/
structure RawInfo where
  id : Option String := none
  title : Option String := none
  webpage_url : Option String := none
  duration : Option Int := none
  upload_date : Option String := none
  view_count : Option Int := none
  like_count : Option Int := none
  thumbnail : Option String := none
  description : Option String := none
  tags : Option (List String) := none
  is_live : Option Bool := none
  age_limit : Option Int := none
  uploader : Option String := none
  uploader_url : Option String := none
  channel_url : Option String := none
  uploader_id : Option String := none
  formats : List RawFormat := []
  related : List RelEntry := []
deriving DecidableEq

/-- The dict yt-dlp returns for a `ytsearch:` identifier; only
`entries` is read (`data.get('entries') or []`, line 95). -/
structure SearchData where
  entries : Option (List RawInfo) := none

/-- The external extraction engine, as the oracles the embedded handlers
consume: `searchData q` is `ydl.extract_info("ytsearch:" + q)` and
`urlData u` is `ydl.extract_info(u)`; `none` models a raised engine
exception. -/
structure Engine where
  searchData : String → Option SearchData
  urlData : Option String → Option RawInfo

/-- The `(info, err, code)` triple `extract_info` returns, with the two
error components fused: `ok info` is `(info, None, None)` and
`err e c` is `(None, {'error': e}, c)`. -/
inductive ExtractOut
  | ok (info : RawInfo)
  | err (e : String) (code : Nat)
deriving DecidableEq

/-- `extract_info` (lines 90-100): a truthy `search_query` selects the
search branch (zero entries → the 404 triple, else the first entry);
otherwise the url is resolved directly.  `none` models an engine
exception propagating out of `extract_info`. -/
def extract_info_model (eng : Engine) (url : Option String)
    (search_query : Option String) : Option ExtractOut :=
  if (search_query.getD "") ≠ "" then
    match eng.searchData (search_query.getD "") with
    | none => none
    | some data =>
        match data.entries.getD [] with
        | [] => some (.err "No search results" 404)
        | e :: _ => some (.ok e)
  else
    (eng.urlData url).map .ok

/-- A route's JSON answer: `ok v` is the 200 payload, `err msg code` the
`jsonify({'error': msg}), code` pair. -/
inductive RouteResult (α : Type)
  | ok (v : α)
  | err (msg : String) (code : Nat)
deriving DecidableEq

/-- The HTTP status of a route result. -/
def respCode {α : Type} : RouteResult α → Nat
  | .ok _ => 200
  | .err _ c => c

/-! ## The fast-meta route's compute paths (lines 173-193) -/

/-- One result dict of `YoutubeSearch(q).to_dict()`.  `title` and
`url_suffix` are indexed directly (`vid['title']`), so they are required;
`duration` and `thumbnails` are read with `.get`. -/
structure SearchHit where
  title : String
  url_suffix : String
  duration : Option String := none
  thumbnails : Option (List String) := none
deriving DecidableEq

/-- CPython `s.split('v=')` (substring separator, left-to-right scan). -/
def splitVEq : List Char → List (List Char)
  | [] => [[]]
  | 'v' :: '=' :: rest => [] :: splitVEq rest
  | c :: rest =>
      match splitVEq rest with
      | [] => [[c]]
      | p :: ps => (c :: p) :: ps

/-- `vid['url_suffix'].split('v=')[-1]` (line 181). -/
def watchIdOf (url_suffix : String) : String :=
  String.mk ((splitVEq url_suffix.data).getLastD [])

/-- `vid.get('thumbnails', [None])[0]` (line 183): absent key gives the
default `[None]` whose head is `None`; a present but *empty* list makes
the index raise (outer `none`). -/
def hitThumb (vid : SearchHit) : Option (Option String) :=
  match vid.thumbnails with
  | none => some none
  | some [] => none
  | some (t :: _) => some (some t)

/-- The response dict of `/api/fast-meta`; the url branch fills `title`
and `link` from optional info fields, so both are optional. -/
structure FastMetaPayload where
  title : Option String
  link : Option String
  duration : String
  thumbnail : Option String
deriving DecidableEq

/-- The search branch of `api_fast_meta` (lines 174-184) as a function
of the hit list: empty → the 404 response; otherwise the projected dict
from the first hit.  Outer `none` models an exception inside the route's
`try` block (e.g. `int()` raising inside `to_iso_duration`, or indexing
an empty thumbnail list), answered as a 500 whose message is the
stringified exception. -/
def fast_meta_search_compute (results : List SearchHit) :
    Option (RouteResult FastMetaPayload) :=
  match results with
  | [] => some (.err "No results" 404)
  | vid :: _ =>
      match to_iso_duration (vid.duration.getD ""), hitThumb vid with
      | some d, some th =>
          some (.ok { title := some vid.title,
                      link := some ("https://www.youtube.com/watch?v=" ++ watchIdOf vid.url_suffix),
                      duration := d,
                      thumbnail := th })
      | _, _ => none

/-- `str(info.get('duration'))` (line 191): `None` prints as `"None"`,
an integer as its decimal form. -/
def pyStrOfOptInt : Option Int → String
  | none => "None"
  | some n => toString n

/-- The two external collaborators `api_fast_meta` uses:
`YoutubeSearch(q, max_results=1).to_dict()` and the metadata-only
yt-dlp probe (`none` = raised). -/
structure FastMetaWorld where
  searchResults : String → List SearchHit
  urlInfo : String → Option RawInfo

/-- The body of `api_fast_meta`'s `try` block (lines 173-193), after the
cache and 400 guards, on already-stripped `q` and `u`; outer `none`
models an exception answered by the route's `except` branch as a 500
carrying the stringified exception. -/
def fast_meta_compute (w : FastMetaWorld) (q u : String) :
    Option (RouteResult FastMetaPayload) :=
  if q ≠ "" then
    fast_meta_search_compute (w.searchResults q)
  else
    match w.urlInfo u with
    | none => none
    | some info =>
        (to_iso_duration (pyStrOfOptInt info.duration)).map (fun d =>
          .ok { title := info.title, link := info.webpage_url,
                duration := d, thumbnail := info.thumbnail })

/-! ## Payload projections for `/api/all` and `/api/meta` -/

/-- Python `a or b` on two optional strings (`None` and `""` are falsy). -/
def pyOrStr (a b : Option String) : Option String :=
  match a with
  | some s => if s = "" then b else some s
  | none => b

/-- Python `s or None` for a string already in hand (lines 205, 249). -/
def pyOrNone (s : String) : Option String :=
  if s = "" then none else some s

/-- One element of `api_all`'s `suggestions` list (lines 209-214). -/
structure Suggestion where
  id : Option String
  title : Option String
  url : Option String
  thumbnail : Option String
deriving DecidableEq

/-- `rel.get('thumbnails', [{}])[0].get('url')`: absent key defaults to
`[{}]` whose head has no `url`; a present empty list raises (`none`). -/
def relThumb (rel : RelEntry) : Option (Option String) :=
  match rel.thumbnails with
  | none => some none
  | some [] => none
  | some (t :: _) => some t

/-- One iteration of the `suggestions` comprehension. -/
def mkSuggestion (rel : RelEntry) : Option Suggestion :=
  (relThumb rel).map (fun th =>
    { id := rel.id, title := rel.title,
      url := pyOrStr rel.webpage_url rel.url, thumbnail := th })

/-- The success payload of `/api/all` (lines 215-235).  `tags` and
`average_rating`: see `RawInfo`. -/
structure AllPayload where
  title : Option String
  video_url : Option String
  duration : Option Int
  upload_date : Option String
  view_count : Option Int
  like_count : Option Int
  thumbnail : Option String
  description : Option String
  tags : Option (List String)
  is_live : Option Bool
  age_limit : Option Int
  channel_name : Option String
  channel_url : Option String
  channel_id : Option String
  formats : List ClassifiedFormat
  suggestions : List Suggestion
deriving DecidableEq

/-- The response construction of `api_all` on a resolved info record
(lines 208-235); `none` when the suggestions comprehension raises.
Note the `duration` field is `info.get('duration')` verbatim — the raw
numeric duration, *not* `to_iso_duration` of it. -/
def api_all_payload (info : RawInfo) : Option AllPayload :=
  (info.related.mapM mkSuggestion).map (fun sugg =>
    { title := info.title, video_url := info.webpage_url,
      duration := info.duration, upload_date := info.upload_date,
      view_count := info.view_count, like_count := info.like_count,
      thumbnail := info.thumbnail, description := info.description,
      tags := info.tags, is_live := info.is_live,
      age_limit := info.age_limit, channel_name := info.uploader,
      channel_url := pyOrStr info.uploader_url info.channel_url,
      channel_id := info.uploader_id,
      formats := build_formats_list info.formats, suggestions := sugg })

/-- The `metadata` dict of `/api/meta` (lines 252-256); `average_rating`
is omitted as in `RawInfo`. -/
structure MetaProjection where
  id : Option String
  title : Option String
  webpage_url : Option String
  duration : Option Int
  upload_date : Option String
  view_count : Option Int
  like_count : Option Int
  thumbnail : Option String
  description : Option String
  tags : Option (List String)
  is_live : Option Bool
  age_limit : Option Int
  uploader : Option String
  uploader_url : Option String
  uploader_id : Option String
deriving DecidableEq

/-- The `{k: info.get(k) for k in keys}` projection of `api_meta`. -/
def metaProject (info : RawInfo) : MetaProjection :=
  { id := info.id, title := info.title, webpage_url := info.webpage_url,
    duration := info.duration, upload_date := info.upload_date,
    view_count := info.view_count, like_count := info.like_count,
    thumbnail := info.thumbnail, description := info.description,
    tags := info.tags, is_live := info.is_live, age_limit := info.age_limit,
    uploader := info.uploader, uploader_url := info.uploader_url,
    uploader_id := info.uploader_id }

/-! ## Requests, cache keys and the cache store -/

/-- A request's decoded query parameters, in order.  Percent-encoding is
not modelled; the concrete requests in the theorems below use only
characters that encode to themselves. -/
abbrev Query : Type := List (String × String)

/-- `request.args.get(k)`: first binding of `k`. -/
def queryGetFirst (qs : Query) (k : String) : Option String :=
  (List.find? (fun p => p.1 = k) qs).map (fun p => p.2)

/-- `k in request.args`. -/
def queryHas (qs : Query) (k : String) : Bool :=
  List.any qs (fun p => p.1 = k)

/-- The raw query string as Flask reproduces it in `request.full_path`. -/
def rawQueryString (qs : Query) : String :=
  String.intercalate "&" (qs.map (fun p => p.1 ++ "=" ++ p.2))

/-- Flask's `request.full_path`: path, `?`, raw query string. -/
def full_path (path : String) (qs : Query) : String :=
  path ++ "?" ++ rawQueryString qs

/-- The cache key of `/api/fast-meta` (line 165): route name and the
*stripped* `search` and `url` parameters; the `latest` flag is not part
of the key. -/
def fast_meta_key (qs : Query) : String :=
  "fast_meta:" ++ pyStrip ((queryGetFirst qs "search").getD "") ++ ":" ++
    pyStrip ((queryGetFirst qs "url").getD "")

/-- The cache key of `/api/meta` (line 241). -/
def meta_key (qs : Query) : String :=
  "meta:" ++ pyStrip ((queryGetFirst qs "search").getD "") ++ ":" ++
    pyStrip ((queryGetFirst qs "url").getD "")

/-- The cache key of `/download` (line 404):
`key_prefix=lambda: f"download:{request.full_path}"` — the *entire* raw
request line including every parameter, unstripped. -/
def download_cache_key (qs : Query) : String :=
  "download:" ++ full_path "/download" qs

/-- The in-memory cache: an association list keyed by signature, each
entry carrying its flask-caching timeout (0 = retained until evicted,
per `CACHE_DEFAULT_TIMEOUT: 0`, lines 49-52). -/
abbrev CacheState (V : Type) : Type := List (String × V × Nat)

/-- `cache.get(k)`. -/
def cacheGet {V : Type} (c : CacheState V) (k : String) : Option V :=
  (List.find? (fun e => e.1 = k) c).map (fun e => e.2.1)

/-- `cache.set(k, v, timeout)`: unconditional overwrite. -/
def cacheSet {V : Type} (c : CacheState V) (k : String) (v : V) (t : Nat) :
    CacheState V :=
  (k, v, t) :: List.filter (fun e => e.1 ≠ k) c

/-- `cache.delete(k)`. -/
def cacheDelete {V : Type} (c : CacheState V) (k : String) : CacheState V :=
  List.filter (fun e => e.1 ≠ k) c

/-- `CACHE_DEFAULT_TIMEOUT` (line 51): `0`, infinite retention. -/
def CACHE_DEFAULT_TIMEOUT : Nat := 0

/-- `STREAM_TIMEOUT` (line 401): five hours. -/
def STREAM_TIMEOUT : Nat := 5 * 3600

/-! ## Route handlers

Each handler is the decision skeleton of the corresponding Flask view:
the request is the decoded parameter list, the external engine is an
oracle argument, and the result carries the response, the final cache
state (for cached routes) and a flag recording whether the request went
past cache and guards into an engine/search call.  Outer `none` models
an exception the view does not turn into a JSON error itself. -/

/-- `'Provide "search" or "url"'` (lines 172, 204, 248). -/
def provideSearchUrlMsg : String := "Provide \x22search\x22 or \x22url\x22"

/-- `'Provide "url" or "search"'` (lines 409, 420, 432). -/
def provideUrlSearchMsg : String := "Provide \x22url\x22 or \x22search\x22"

/-- `/api/all` (lines 199-235): uncached; strips both parameters; 400
before any engine call when both strip to empty. -/
def api_all_handler (eng : Engine) (qs : Query) :
    Option (RouteResult AllPayload × Bool) :=
  let q := pyStrip ((queryGetFirst qs "search").getD "")
  let u := pyStrip ((queryGetFirst qs "url").getD "")
  if q = "" ∧ u = "" then some (.err provideSearchUrlMsg 400, false)
  else
    match extract_info_model eng (pyOrNone u) (pyOrNone q) with
    | none => none
    | some (.err e code) => some (.err e code, true)
    | some (.ok info) => (api_all_payload info).map (fun p => (.ok p, true))

/-- `/api/meta` (lines 237-258): `latest` deletes the key, then the
cache is consulted *before* the 400 guard; a computed success is stored
with the default (infinite) timeout. -/
def api_meta_handler (eng : Engine) (qs : Query) (c : CacheState MetaProjection) :
    Option (RouteResult MetaProjection × CacheState MetaProjection × Bool) :=
  let q := pyStrip ((queryGetFirst qs "search").getD "")
  let u := pyStrip ((queryGetFirst qs "url").getD "")
  let key := meta_key qs
  let c1 := if queryHas qs "latest" then cacheDelete c key else c
  match cacheGet c1 key with
  | some v => some (.ok v, c1, false)
  | none =>
      if q = "" ∧ u = "" then some (.err provideSearchUrlMsg 400, c1, false)
      else
        match extract_info_model eng (pyOrNone u) (pyOrNone q) with
        | none => none
        | some (.err e code) => some (.err e code, c1, true)
        | some (.ok info) =>
            let data := metaProject info
            some (.ok data, cacheSet c1 key data CACHE_DEFAULT_TIMEOUT, true)

/-- `/api/fast-meta` (lines 161-197): same cache discipline as
`/api/meta`, computing through `fast_meta_compute`. -/
def api_fast_meta_handler (w : FastMetaWorld) (qs : Query)
    (c : CacheState FastMetaPayload) :
    Option (RouteResult FastMetaPayload × CacheState FastMetaPayload × Bool) :=
  let q := pyStrip ((queryGetFirst qs "search").getD "")
  let u := pyStrip ((queryGetFirst qs "url").getD "")
  let key := fast_meta_key qs
  let c1 := if queryHas qs "latest" then cacheDelete c key else c
  match cacheGet c1 key with
  | some v => some (.ok v, c1, false)
  | none =>
      if q = "" ∧ u = "" then some (.err provideSearchUrlMsg 400, c1, false)
      else
        match fast_meta_compute w q u with
        | none => none
        | some (.err e code) => some (.err e code, c1, true)
        | some (.ok p) =>
            some (.ok p, cacheSet c1 key p CACHE_DEFAULT_TIMEOUT, true)

/-- `/download` (lines 403-413): the `cached` decorator serves any entry
under `download:{full_path}` outright and otherwise stores the whole
response with `STREAM_TIMEOUT`; the view itself reads its parameters
*unstripped* and never looks at `latest`. -/
def download_handler (eng : Engine) (qs : Query)
    (c : CacheState (RouteResult (List ClassifiedFormat))) :
    Option (RouteResult (List ClassifiedFormat) ×
      CacheState (RouteResult (List ClassifiedFormat)) × Bool) :=
  let key := download_cache_key qs
  match cacheGet c key with
  | some r => some (r, c, false)
  | none =>
      let url := queryGetFirst qs "url"
      let search := queryGetFirst qs "search"
      if (url.getD "") = "" ∧ (search.getD "") = "" then
        let r : RouteResult (List ClassifiedFormat) := .err provideUrlSearchMsg 400
        some (r, cacheSet c key r STREAM_TIMEOUT, false)
      else
        match extract_info_model eng url search with
        | none => none
        | some (.err e code) =>
            let r : RouteResult (List ClassifiedFormat) := .err e code
            some (r, cacheSet c key r STREAM_TIMEOUT, true)
        | some (.ok info) =>
            let r : RouteResult (List ClassifiedFormat) :=
              .ok (build_formats_list info.formats)
            some (r, cacheSet c key r STREAM_TIMEOUT, true)

/-- `/api/audio` (lines 415-425): no cache at all; unstripped
parameters; filters the classified list to audio-carrying kinds. -/
def api_audio_handler (eng : Engine) (qs : Query) :
    Option (RouteResult (List ClassifiedFormat) × Bool) :=
  let url := queryGetFirst qs "url"
  let search := queryGetFirst qs "search"
  if (url.getD "") = "" ∧ (search.getD "") = "" then
    some (.err provideUrlSearchMsg 400, false)
  else
    match extract_info_model eng url search with
    | none => none
    | some (.err e code) => some (.err e code, true)
    | some (.ok info) =>
        some (.ok ((build_formats_list info.formats).filter
          (fun f => f.kind == "audio-only" || f.kind == "progressive")), true)

/-- `/api/video` (lines 427-437): no cache at all; unstripped
parameters; filters the classified list to video-carrying kinds. -/
def api_video_handler (eng : Engine) (qs : Query) :
    Option (RouteResult (List ClassifiedFormat) × Bool) :=
  let url := queryGetFirst qs "url"
  let search := queryGetFirst qs "search"
  if (url.getD "") = "" ∧ (search.getD "") = "" then
    some (.err provideUrlSearchMsg 400, false)
  else
    match extract_info_model eng url search with
    | none => none
    | some (.err e code) => some (.err e code, true)
    | some (.ok info) =>
        some (.ok ((build_formats_list info.formats).filter
          (fun f => f.kind == "video-only" || f.kind == "progressive")), true)

/-! ## The per-route cache policy (the table of `cache` calls each view
makes, lines 149-437) -/

/-- The thirteen routes of the app. -/
inductive Route
  | home | fast_meta | all | meta | channel | playlist
  | instagram | twitter | tiktok | facebook
  | download | audio | video
deriving DecidableEq

/-- How a route uses the cache: not at all, `cache.set` with an explicit
per-call timeout (absent = the configured default `0`), or the `cached`
decorator with its timeout. -/
inductive CachePolicy
  | uncached
  | manualSet (timeout : Nat)
  | decoratorCached (timeout : Nat)
deriving DecidableEq

/-- The cache usage of each view, read off the route bodies:
`home`/`fast_meta`/`meta`/`channel`/`playlist`/`instagram`/`twitter`/
`tiktok`/`facebook` call `cache.set(key, data)` with no timeout
argument (default `0`); `download` is wrapped in
`@cache.cached(timeout=STREAM_TIMEOUT, ...)`;
`all`, `audio` and `video` contain no cache call (lines 199-235,
415-437). -/
def cachePolicy : Route → CachePolicy
  | .home => .manualSet CACHE_DEFAULT_TIMEOUT
  | .fast_meta => .manualSet CACHE_DEFAULT_TIMEOUT
  | .all => .uncached
  | .meta => .manualSet CACHE_DEFAULT_TIMEOUT
  | .channel => .manualSet CACHE_DEFAULT_TIMEOUT
  | .playlist => .manualSet CACHE_DEFAULT_TIMEOUT
  | .instagram => .manualSet CACHE_DEFAULT_TIMEOUT
  | .twitter => .manualSet CACHE_DEFAULT_TIMEOUT
  | .tiktok => .manualSet CACHE_DEFAULT_TIMEOUT
  | .facebook => .manualSet CACHE_DEFAULT_TIMEOUT
  | .download => .decoratorCached STREAM_TIMEOUT
  | .audio => .uncached
  | .video => .uncached

/-- The stream/format-listing endpoints in the sense of the spec: the
three routes whose responses embed upstream media urls (`/download`,
`/api/audio`, `/api/video`, lines 398-437). -/
def isStreamRoute : Route → Bool
  | .download => true
  | .audio => true
  | .video => true
  | _ => false

/-! ## Spec-side definitions (written from the claims, for comparison
with the code-side definitions above) -/

/-- Claim C1's notion of a codec being usable: *present* and not the
sentinel `"none"` — an absent codec does not count. -/
def claimCodecPresent : Option String → Bool
  | none => false
  | some c => c != "none"

/-- The format classifier as claim C1 words it: keep exactly the
elements with a usable url and at least one codec present-and-not-none,
with the same kind assignment and projection as the code. -/
def claimClassify (f : RawFormat) : Option ClassifiedFormat :=
  match f.url with
  | none => none
  | some u =>
      if u = "" then none
      else
        let hv := claimCodecPresent f.vcodec
        let ha := claimCodecPresent f.acodec
        if hv || ha then
          let k := if hv && ha then "progressive"
                   else if hv then "video-only" else "audio-only"
          let size := get_size_bytes f
          some { format_id := f.format_id, ext := f.ext, kind := k,
                 filesize_bytes := size, filesize := format_size size,
                 width := f.width, height := f.height, fps := f.fps,
                 abr := f.abr, asr := f.asr, url := u }
        else none

/-- The classifier of claim C1, lifted to lists. -/
def claimFormatsList (l : List RawFormat) : List ClassifiedFormat :=
  l.filterMap claimClassify

/-- A format's url is usable in the code's sense: present and nonempty. -/
def fmtUsableUrl (f : RawFormat) : Bool :=
  match f.url with
  | none => false
  | some u => u != ""

/-- The code's video test: `f.get('vcodec') != 'none'` (an absent codec
passes). -/
def fmtHasVideo (f : RawFormat) : Bool :=
  f.vcodec != some "none"

/-- The code's audio test: `f.get('acodec') != 'none'`. -/
def fmtHasAudio (f : RawFormat) : Bool :=
  f.acodec != some "none"

/-- The kind the code assigns to a kept format. -/
def fmtKind (f : RawFormat) : String :=
  if fmtHasVideo f && fmtHasAudio f then "progressive"
  else if fmtHasVideo f then "video-only" else "audio-only"

/-- The record the code emits for a kept format. -/
def fmtClassified (f : RawFormat) : ClassifiedFormat :=
  { format_id := f.format_id, ext := f.ext, kind := fmtKind f,
    filesize_bytes := get_size_bytes f,
    filesize := format_size (get_size_bytes f),
    width := f.width, height := f.height, fps := f.fps,
    abr := f.abr, asr := f.asr, url := f.url.getD "" }

/-- The size formatter as claim C6 words it: `≥`-tiers at `10^9`, `10^6`
and `10^3`, two decimal places inside a tier, raw byte count plus
`" B"` below.  (It renders the two decimals with the same
`twoDecString` the code-side embedding uses, since the claim fixes "two
decimal places", not a rounding rule.) -/
def sizeFormatterSpec (n : Nat) : String :=
  if n ≥ 10 ^ 9 then twoDecString n (10 ^ 9) ++ " GB"
  else if n ≥ 10 ^ 6 then twoDecString n (10 ^ 6) ++ " MB"
  else if n ≥ 10 ^ 3 then twoDecString n (10 ^ 3) ++ " KB"
  else toString n ++ " B"

/-- A JSON scalar, used to compare fields whose Python values live in
different JSON types (number vs string). -/
inductive JVal
  | jnull
  | jstr (s : String)
  | jnum (n : Int)
deriving DecidableEq

/-- The JSON value of an optional integer field. -/
def durationJson : Option Int → JVal
  | some n => .jnum n
  | none => .jnull

/-! ## Concrete inputs used by individual claims -/

/-- C1's refuting input: a format with a url and *no* codec fields. -/
def c1fmt : RawFormat := { url := some "x" }

/-- C1's four-element example input from the spec. -/
def c1example : List RawFormat :=
  [{ url := none },
   { url := some "a", vcodec := some "h264", acodec := some "none" },
   { url := some "b", vcodec := some "none", acodec := some "none" },
   { url := some "c", vcodec := some "h264", acodec := some "aac" }]

/-- C4's refuting record: a search hit resolved by `/api/all` with a
numeric 125-second duration. -/
def c4info : RawInfo := { duration := some 125 }

/-- A concrete search hit for C4's witness. -/
def c4hit : SearchHit :=
  { title := "t", url_suffix := "v=abc", duration := some "5:09",
    thumbnails := some ["th"] }

/-- The fast-meta payload `c4hit` produces. -/
def c4fmPayload : FastMetaPayload :=
  { title := some "t", link := some "https://www.youtube.com/watch?v=abc",
    duration := "PT5M9S", thumbnail := some "th" }

/-- The `/api/all` payload of the empty info record. -/
def c4allPayload : AllPayload :=
  { title := none, video_url := none, duration := none, upload_date := none,
    view_count := none, like_count := none, thumbnail := none,
    description := none, tags := none, is_live := none, age_limit := none,
    channel_name := none, channel_url := none, channel_id := none,
    formats := [], suggestions := [] }

/-- An engine whose url resolution always succeeds with an empty record
(used to show `/download` does call the engine on a whitespace url). -/
def c7eng : Engine :=
  { searchData := fun _ => none, urlData := fun _ => some {} }

/-- A search request used by C5's witness. -/
def c5qs : Query := [("search", "x")]

/-- A one-hit record for C5's witness engine. -/
def c5info : RawInfo := { title := some "t" }

/-- An engine whose search always returns `c5info` (C5 witness). -/
def c5eng : Engine :=
  { searchData := fun _ => some { entries := some [c5info] },
    urlData := fun _ => none }

/-- The output `api_meta_handler` produces for `c5qs` on the empty
cache with `c5eng`. -/
def c5metaOut : RouteResult MetaProjection × CacheState MetaProjection × Bool :=
  (.ok (metaProject c5info),
   cacheSet [] (meta_key c5qs) (metaProject c5info) CACHE_DEFAULT_TIMEOUT, true)

/-- The output `download_handler` produces for `c5qs` on the empty
cache with `c5eng`. -/
def c5dlOut : RouteResult (List ClassifiedFormat) ×
    CacheState (RouteResult (List ClassifiedFormat)) × Bool :=
  (.ok [], cacheSet [] (download_cache_key c5qs) (.ok []) STREAM_TIMEOUT, true)

/-- The `/download` output for the empty request on the empty cache
(C7 witness): the 400 response, which the `cached` decorator stores
too. -/
def c7dlOut : RouteResult (List ClassifiedFormat) ×
    CacheState (RouteResult (List ClassifiedFormat)) × Bool :=
  (.err provideUrlSearchMsg 400,
   cacheSet [] (download_cache_key []) (.err provideUrlSearchMsg 400) STREAM_TIMEOUT,
   false)

/-- An engine whose search always returns one hit, `c9info`. -/
def c9info : RawInfo := { title := some "t" }

/-- See `c9info`. -/
def c9eng : Engine :=
  { searchData := fun _ => some { entries := some [c9info] },
    urlData := fun _ => none }

/-- A `/download` request carrying the force-refresh flag. -/
def c9qs : Query := [("search", "x"), ("latest", "1")]

/-- The same `/download` request without the flag. -/
def c9qs0 : Query := [("search", "x")]

/-- The cache `/download` leaves behind after serving `c9qs0`. -/
def c9cache0 : CacheState (RouteResult (List ClassifiedFormat)) :=
  match download_handler c9eng c9qs0 [] with
  | some out => out.2.1
  | none => []

/-- The cache `/download` leaves behind after serving the force-refresh
request `c9qs` on an empty cache. -/
def c9cache1 : CacheState (RouteResult (List ClassifiedFormat)) :=
  match download_handler c9eng c9qs [] with
  | some out => out.2.1
  | none => []

/-- A `/api/meta` request carrying the force-refresh flag. -/
def c9metaQs : Query := [("search", "x"), ("latest", "1")]

/-- A cache holding a previously `set` entry for `c9metaQs`'s key. -/
def c9metaCache : CacheState MetaProjection :=
  cacheSet [] (meta_key c9metaQs) (metaProject c9info) 0

/-- The output `api_meta_handler` produces for `c9metaQs` on
`c9metaCache`. -/
def c9metaOut : RouteResult MetaProjection × CacheState MetaProjection × Bool :=
  (.ok (metaProject c9info),
   cacheSet (cacheDelete c9metaCache (meta_key c9metaQs)) (meta_key c9metaQs)
     (metaProject c9info) CACHE_DEFAULT_TIMEOUT,
   true)

/-- A world for `/api/fast-meta` whose collaborators are never reached
in C10's cache-hit scenario. -/
def c10w : FastMetaWorld :=
  { searchResults := fun _ => [], urlInfo := fun _ => none }

/-- A cached fast-meta payload. -/
def c10p1 : FastMetaPayload :=
  { title := some "A", link := none, duration := "PT1S", thumbnail := none }

/-- A second, different cached fast-meta payload. -/
def c10p2 : FastMetaPayload :=
  { title := some "B", link := none, duration := "PT2S", thumbnail := none }

/-- A fast-meta request with both `search` and `url`. -/
def c10qs1 : Query := [("search", "q"), ("url", "u")]

/-- The same request without `url`. -/
def c10qs2 : Query := [("search", "q")]

/-- A cache state holding different payloads under the two keys the two
requests hash to. -/
def c10cache : CacheState FastMetaPayload :=
  [(fast_meta_key c10qs1, c10p1, 0), (fast_meta_key c10qs2, c10p2, 0)]

/-- An engine for C10's witness. -/
def c10weng : Engine :=
  { searchData := fun _ => some {}, urlData := fun _ => none }

/-- An engine whose search yields no entries (C8 witness). -/
def c8engEmpty : Engine :=
  { searchData := fun _ => some { entries := some [] },
    urlData := fun _ => none }

/-- An engine whose search yields exactly one empty record (C8
witness). -/
def c8engHit : Engine :=
  { searchData := fun _ => some { entries := some [({} : RawInfo)] },
    urlData := fun _ => none }

/-! ## Helper lemmas -/

theorem classify_format_eq (f : RawFormat) :
    classify_format f =
      if fmtUsableUrl f && (fmtHasVideo f || fmtHasAudio f) then some (fmtClassified f)
      else none := by
  obtain ⟨fid, fext, fsz, fsza, fac, fvc, fw, fh, ffps, fabr, fasr, furl⟩ := f
  cases furl with
  | none => simp [classify_format, fmtUsableUrl]
  | some u =>
      by_cases hu : u = ""
      · simp [classify_format, fmtUsableUrl, hu]
      · by_cases hv : fvc = some "none" <;> by_cases ha : fac = some "none" <;>
          simp [classify_format, fmtUsableUrl, fmtHasVideo, fmtHasAudio, fmtClassified,
                fmtKind, hu, hv, ha, bne_iff_ne]

theorem build_formats_list_eq (fs : List RawFormat) :
    build_formats_list fs =
      (fs.filter (fun f => fmtUsableUrl f && (fmtHasVideo f || fmtHasAudio f))).map
        fmtClassified := by
  induction fs with
  | nil => rfl
  | cons f rest ih =>
      unfold build_formats_list at ih ⊢
      by_cases h : (fmtUsableUrl f && (fmtHasVideo f || fmtHasAudio f)) = true
      · simp [List.filterMap_cons, List.filter_cons, classify_format_eq f, h, ih]
      · simp only [Bool.not_eq_true] at h
        simp [List.filterMap_cons, List.filter_cons, classify_format_eq f, h, ih]

theorem dropWhile_eq_self_of (p : Char → Bool) (l : List Char)
    (h : ∀ c ∈ l, p c = false) : l.dropWhile p = l := by
  cases l with
  | nil => rfl
  | cons c rest => simp [List.dropWhile_cons, h c (by simp)]

theorem digit_not_space (c : Char) (h : c.isDigit = true) : pyIsSpace c = false := by
  by_contra hs
  rw [Bool.not_eq_false] at hs
  unfold pyIsSpace at hs
  simp only [Bool.or_eq_true, decide_eq_true_eq] at hs
  rcases hs with ((((h1 | h1) | h1) | h1) | h1) | h1 <;> subst h1 <;>
    exact absurd h (by decide)

theorem pyStripChars_of_digits (l : List Char) (h : ∀ c ∈ l, c.isDigit = true) :
    pyStripChars l = l := by
  unfold pyStripChars
  rw [dropWhile_eq_self_of _ _ (fun c hc => digit_not_space c (h c hc)),
      dropWhile_eq_self_of _ _ (fun c hc => digit_not_space c (h c (List.mem_reverse.mp hc))),
      List.reverse_reverse]

theorem digit_ne_underscore (c : Char) (h : c.isDigit = true) : c ≠ '_' := by
  intro he
  rw [he] at h
  exact absurd h (by decide)

theorem no_double_underscore_of_digits (l : List Char)
    (h : ∀ c ∈ l, c.isDigit = true) : hasDoubleUnderscore l = false := by
  induction l with
  | nil => rfl
  | cons c rest ih =>
      cases rest with
      | nil => rfl
      | cons c2 r2 =>
          have hc : c ≠ '_' := digit_ne_underscore c (h c (by simp))
          simp only [hasDoubleUnderscore]
          rw [ih (fun x hx => h x (List.mem_cons_of_mem _ hx))]
          simp [hc]

theorem pyDigitsVal_of_digits (l : List Char) (hne : l ≠ [])
    (hall : ∀ c ∈ l, c.isDigit = true) : ∃ n : Nat, pyDigitsVal l = some n := by
  unfold pyDigitsVal
  rw [if_neg hne]
  have hhead : (l.head? = some '_') = False := by
    cases l with
    | nil => simp
    | cons c rest =>
        simp only [List.head?_cons, Option.some.injEq, eq_iff_iff, iff_false]
        exact fun he => digit_ne_underscore c (hall c (by simp)) he
  have hlast : (l.getLast? = some '_') = False := by
    simp only [eq_iff_iff, iff_false]
    intro he
    obtain ⟨hne0, hx⟩ := List.mem_getLast?_eq_getLast (Option.mem_def.mpr he)
    have hmem : '_' ∈ l := by rw [hx]; exact List.getLast_mem hne0
    exact digit_ne_underscore '_' (hall '_' hmem) rfl
  have hdu := no_double_underscore_of_digits l hall
  rw [if_neg (by simp [hhead, hlast, hdu])]
  rw [if_pos (by
    rw [List.all_eq_true]
    intro c hc
    simp [hall c hc])]
  exact ⟨_, rfl⟩

theorem pyIsDigit_pyInt (p : String) (h : pyIsDigit p = true) :
    ∃ n : Nat, pyInt p = some (Int.ofNat n) := by
  unfold pyIsDigit at h
  simp only [Bool.and_eq_true, decide_eq_true_eq, List.all_eq_true] at h
  obtain ⟨hne, hall⟩ := h
  have hall2 : ∀ c ∈ p.data, c.isDigit = true := fun c hc => hall c hc
  unfold pyInt
  rw [pyStripChars_of_digits p.data hall2]
  cases hd : p.data with
  | nil => exact absurd hd hne
  | cons c rest =>
      have hc : c.isDigit = true := hall2 c (by rw [hd]; simp)
      have hplus : c ≠ '+' := by intro he; rw [he] at hc; exact absurd hc (by decide)
      have hminus : c ≠ '-' := by intro he; rw [he] at hc; exact absurd hc (by decide)
      dsimp only
      rw [if_neg hplus, if_neg hminus]
      obtain ⟨n, hn⟩ := pyDigitsVal_of_digits (c :: rest)
        (by simp) (fun x hx => hall2 x (by rw [hd]; exact hx))
      exact ⟨n, by rw [hn]; rfl⟩

theorem splitOnColon_of_no_colon (l : List Char) (h : ∀ c ∈ l, c ≠ ':') :
    splitOnColon l = [l] := by
  induction l with
  | nil => rfl
  | cons c rest ih =>
      rw [splitOnColon, if_neg (h c (by simp)), ih (fun x hx => h x (List.mem_cons_of_mem _ hx))]

theorem splitOnColon_append (a b : List Char) (h : ∀ c ∈ a, c ≠ ':') :
    splitOnColon (a ++ ':' :: b) = a :: splitOnColon b := by
  induction a with
  | nil => simp [splitOnColon]
  | cons c rest ih =>
      have hc : c ≠ ':' := h c (by simp)
      rw [List.cons_append, splitOnColon, if_neg hc,
          ih (fun x hx => h x (List.mem_cons_of_mem _ hx))]

theorem string_mk_data (s : String) : String.mk s.data = s := rfl

theorem pyDurationParts_three (a b c : String)
    (ha : ∀ ch ∈ a.data, ch ≠ ':') (hb : ∀ ch ∈ b.data, ch ≠ ':')
    (hc : ∀ ch ∈ c.data, ch ≠ ':') :
    pyDurationParts (a ++ ":" ++ b ++ ":" ++ c) = [a, b, c] := by
  have hdata : (a ++ ":" ++ b ++ ":" ++ c).data =
      a.data ++ ':' :: (b.data ++ ':' :: c.data) := by
    simp [String.data_append]
  have hne : (a ++ ":" ++ b ++ ":" ++ c) ≠ "" := by
    intro h0
    have h1 := congrArg String.data h0
    rw [hdata] at h1
    simp at h1
  unfold pyDurationParts
  rw [if_neg hne, hdata, splitOnColon_append _ _ ha, splitOnColon_append _ _ hb,
      splitOnColon_of_no_colon _ hc]
  simp [string_mk_data]

theorem pyDurationParts_two (b c : String)
    (hb : ∀ ch ∈ b.data, ch ≠ ':') (hc : ∀ ch ∈ c.data, ch ≠ ':') :
    pyDurationParts (b ++ ":" ++ c) = [b, c] := by
  have hdata : (b ++ ":" ++ c).data = b.data ++ ':' :: c.data := by
    simp [String.data_append]
  have hne : (b ++ ":" ++ c) ≠ "" := by
    intro h0
    have h1 := congrArg String.data h0
    rw [hdata] at h1
    simp at h1
  unfold pyDurationParts
  rw [if_neg hne, hdata, splitOnColon_append _ _ hb, splitOnColon_of_no_colon _ hc]
  simp [string_mk_data]

theorem to_iso_duration_none_iff (s : String) :
    to_iso_duration s = none ↔
      ((pyDurationParts s).length = 2 ∨ (pyDurationParts s).length = 3) ∧
        ∃ p ∈ pyDurationParts s, pyInt p = none := by
  cases h : pyDurationParts s with
  | nil => simp [to_iso_duration, h]
  | cons p1 t1 =>
      cases t1 with
      | nil =>
          by_cases hd : pyIsDigit p1
          · obtain ⟨n, hn⟩ := pyIsDigit_pyInt p1 hd
            simp [to_iso_duration, h, hd, hn]
          · simp only [Bool.not_eq_true] at hd
            simp [to_iso_duration, h, hd]
      | cons p2 t2 =>
          cases t2 with
          | nil =>
              cases hp1 : pyInt p1 <;> cases hp2 : pyInt p2 <;>
                simp [to_iso_duration, h, hp1, hp2]
          | cons p3 t3 =>
              cases t3 with
              | nil =>
                  cases hp1 : pyInt p1 <;> cases hp2 : pyInt p2 <;>
                    cases hp3 : pyInt p3 <;>
                      simp [to_iso_duration, h, hp1, hp2, hp3]
              | cons p4 t4 =>
                  simp [to_iso_duration, h]

theorem cacheGet_cacheDelete_self {V : Type} (c : CacheState V) (k : String) :
    cacheGet (cacheDelete c k) k = none := by
  induction c with
  | nil => rfl
  | cons e rest ih =>
      by_cases h : e.1 = k
      · have hd : cacheDelete (e :: rest) k = cacheDelete rest k := by
          simp [cacheDelete, List.filter_cons, h]
        rw [hd]
        exact ih
      · simp only [cacheDelete, List.filter_cons] at ih ⊢
        simp [h, cacheGet, List.find?_cons, ih]

theorem cacheGet_cacheDelete_ne {V : Type} (c : CacheState V) (k k2 : String)
    (h : k2 ≠ k) : cacheGet (cacheDelete c k) k2 = cacheGet c k2 := by
  have hkk : ¬ (k2 = k) := h
  have hkk2 : ¬ (k = k2) := fun hx => h hx.symm
  induction c with
  | nil => rfl
  | cons e rest ih =>
      by_cases he : e.1 = k
      · simpa [cacheDelete, List.filter_cons, he, cacheGet, List.find?_cons, hkk, hkk2]
          using ih
      · by_cases he2 : e.1 = k2
        · simp [cacheDelete, List.filter_cons, he, cacheGet, List.find?_cons, he2, hkk, hkk2]
        · simpa [cacheDelete, List.filter_cons, he, cacheGet, List.find?_cons, he2, hkk, hkk2]
            using ih

theorem cacheGet_cacheSet_self {V : Type} (c : CacheState V) (k : String) (v : V)
    (t : Nat) : cacheGet (cacheSet c k v t) k = some v := by
  simp [cacheGet, cacheSet, List.find?_cons]

theorem cacheGet_cacheSet_ne {V : Type} (c : CacheState V) (k k2 : String) (v : V)
    (t : Nat) (h : k2 ≠ k) : cacheGet (cacheSet c k v t) k2 = cacheGet c k2 := by
  have h1 : ¬ (k = k2) := fun hx => h hx.symm
  calc cacheGet (cacheSet c k v t) k2
      = cacheGet (cacheDelete c k) k2 := by
        simp [cacheGet, cacheSet, cacheDelete, List.find?_cons, h1]
    _ = cacheGet c k2 := cacheGet_cacheDelete_ne c k k2 h

theorem mem_cacheSet {V : Type} (c : CacheState V) (k : String) (v : V) (t : Nat)
    (e : String × V × Nat) (h : e ∈ cacheSet c k v t) : e = (k, v, t) ∨ e ∈ c := by
  unfold cacheSet at h
  rcases List.mem_cons.mp h with h1 | h1
  · exact Or.inl h1
  · exact Or.inr (List.mem_of_mem_filter h1)

theorem mem_cacheDelete {V : Type} (c : CacheState V) (k : String)
    (e : String × V × Nat) (h : e ∈ cacheDelete c k) : e ∈ c :=
  List.mem_of_mem_filter h

/-! ## Theorems for the claims -/

/-- C1 (counterexample): the claim drops a format whose codecs are both
*absent*, but the code keeps it and classifies it progressive — an
absent codec compares unequal to the string `'none'` in
`f.get('vcodec') != 'none'`. -/
theorem claim_C1_counterexample :
    build_formats_list [c1fmt] ≠ claimFormatsList [c1fmt] ∧
    (build_formats_list [c1fmt]).map (fun f => f.kind) = ["progressive"] ∧
    claimFormatsList [c1fmt] = [] := by decide

/-- C1 (amended): `build_formats_list` keeps, in source order, exactly
the formats with a present nonempty url whose codecs are not *both
equal to the string `"none"`* (an absent codec counts as present), with
the kind assignment progressive/video-only/audio-only; on the spec's
four-element example the output is exactly the video-only `"a"` and
progressive `"c"` elements. -/
theorem claim_C1_amended :
    (∀ fs : List RawFormat,
      build_formats_list fs =
        (fs.filter (fun f => fmtUsableUrl f && (fmtHasVideo f || fmtHasAudio f))).map
          fmtClassified) ∧
    build_formats_list c1example =
      [{ format_id := none, ext := none, kind := "video-only", filesize_bytes := 0,
         filesize := "0 B", width := none, height := none, fps := none,
         abr := none, asr := none, url := "a" },
       { format_id := none, ext := none, kind := "progressive", filesize_bytes := 0,
         filesize := "0 B", width := none, height := none, fps := none,
         abr := none, asr := none, url := "c" }] :=
  ⟨build_formats_list_eq, by decide⟩

/-- C2 (counterexample): the claim says every malformed input yields
`"PT0S"`, but on `"a:b:c"` the code reaches the unguarded `int('a')`
and raises `ValueError` (embedded as `none`) instead. -/
theorem claim_C2_counterexample :
    to_iso_duration "a:b:c" = none ∧ to_iso_duration "a:b:c" ≠ some "PT0S" := by
  decide

/-- C2 (amended): `to_iso_duration` raises exactly on 2- or 3-part
inputs with a part `int()` rejects; on integer-valued 3-part input it
emits the hours token only when nonzero, on 2-part input minutes and
seconds; a single numeric token gives `PT{n}S` and every other shape —
zero parts, a single non-numeric token, four or more parts — gives
`PT0S`; the spec's table holds. -/
theorem claim_C2_amended :
    (∀ s : String, to_iso_duration s = none ↔
      ((pyDurationParts s).length = 2 ∨ (pyDurationParts s).length = 3) ∧
        ∃ p ∈ pyDurationParts s, pyInt p = none) ∧
    (∀ a b c : String, ∀ hv mv sv : Int,
      (∀ ch ∈ a.data, ch ≠ ':') → (∀ ch ∈ b.data, ch ≠ ':') →
      (∀ ch ∈ c.data, ch ≠ ':') →
      pyInt a = some hv → pyInt b = some mv → pyInt c = some sv →
      to_iso_duration (a ++ ":" ++ b ++ ":" ++ c) =
        some ("PT" ++ (if hv ≠ 0 then toString hv ++ "H" else "") ++
              toString mv ++ "M" ++ toString sv ++ "S")) ∧
    (∀ b c : String, ∀ mv sv : Int,
      (∀ ch ∈ b.data, ch ≠ ':') → (∀ ch ∈ c.data, ch ≠ ':') →
      pyInt b = some mv → pyInt c = some sv →
      to_iso_duration (b ++ ":" ++ c) =
        some ("PT" ++ toString mv ++ "M" ++ toString sv ++ "S")) ∧
    (∀ s p : String, ∀ n : Int, pyDurationParts s = [p] →
      pyIsDigit p = true → pyInt p = some n →
      to_iso_duration s = some ("PT" ++ toString n ++ "S")) ∧
    (∀ s p : String, pyDurationParts s = [p] → pyIsDigit p = false →
      to_iso_duration s = some "PT0S") ∧
    (∀ s : String, pyDurationParts s = [] → to_iso_duration s = some "PT0S") ∧
    (∀ s : String, 4 ≤ (pyDurationParts s).length →
      to_iso_duration s = some "PT0S") ∧
    to_iso_duration "1:02:03" = some "PT1H2M3S" ∧
    to_iso_duration "0:02:03" = some "PT2M3S" ∧
    to_iso_duration "5:09" = some "PT5M9S" ∧
    to_iso_duration "45" = some "PT45S" ∧
    to_iso_duration "" = some "PT0S" ∧
    to_iso_duration "abc" = some "PT0S" := by
  refine ⟨to_iso_duration_none_iff, ?_, ?_, ?_, ?_, ?_, ?_, by decide, by decide,
    by decide, by decide, by decide, by decide⟩
  · intro a b c hv mv sv ha hb hc hpa hpb hpc
    simp [to_iso_duration, pyDurationParts_three a b c ha hb hc, hpa, hpb, hpc]
  · intro b c mv sv hb hc hpb hpc
    simp [to_iso_duration, pyDurationParts_two b c hb hc, hpb, hpc]
  · intro s p n hp hd hn
    simp [to_iso_duration, hp, hd, hn]
  · intro s p hp hd
    simp [to_iso_duration, hp, hd]
  · intro s hp
    simp [to_iso_duration, hp]
  · intro s hlen
    rcases hp : pyDurationParts s with _ | ⟨p1, t1⟩
    · rw [hp] at hlen
      simp at hlen
    · rcases t1 with _ | ⟨p2, t2⟩
      · rw [hp] at hlen
        simp at hlen
      · rcases t2 with _ | ⟨p3, t3⟩
        · rw [hp] at hlen
          simp at hlen
        · rcases t3 with _ | ⟨p4, t4⟩
          · rw [hp] at hlen
            simp at hlen
          · simp [to_iso_duration, hp]

/-- C2 (witness): the amended theorem applied at the concrete inputs
`"7:08:9"` (3-part), `"45"` (single numeric token) and `"1:2:3:4"`
(four parts), with all hypotheses discharged. -/
theorem claim_C2_witness :
    to_iso_duration "7:08:9" = some "PT7H8M9S" ∧
    to_iso_duration "45" = some "PT45S" ∧
    to_iso_duration "1:2:3:4" = some "PT0S" := by
  refine ⟨?_, ?_, ?_⟩
  · have h := claim_C2_amended.2.1 "7" "08" "9" 7 8 9 (by decide) (by decide)
      (by decide) (by decide) (by decide) (by decide)
    simpa using h
  · have h := claim_C2_amended.2.2.2.1 "45" "45" 45 (by decide) (by decide)
      (by decide)
    rw [h]
    decide
  · exact claim_C2_amended.2.2.2.2.2.2.1 "1:2:3:4" (by decide)

/-- C3 (counterexample): on `/download` the cache key is
`download:{request.full_path}`, so two requests identical up to
parameter whitespace, or up to the presence of the `latest`
(force-refresh) flag, hash to *different* keys — refuting the claim's
"including on the stream/format-listing route /download". -/
theorem claim_C3_counterexample :
    pyStrip ((queryGetFirst [("url", "x")] "url").getD "") =
      pyStrip ((queryGetFirst [("url", "x"), ("latest", "1")] "url").getD "") ∧
    download_cache_key [("url", "x")] ≠
      download_cache_key [("url", "x"), ("latest", "1")] ∧
    pyStrip ((queryGetFirst [("url", " x")] "url").getD "") =
      pyStrip ((queryGetFirst [("url", "x")] "url").getD "") ∧
    download_cache_key [("url", " x")] ≠ download_cache_key [("url", "x")] := by
  decide

/-- C3 (amended): the manually cached metadata routes build their keys
from the route name and the whitespace-stripped `search`/`url`
parameters only (so they are insensitive to surrounding whitespace and
to the force-refresh flag), while `/download`'s key is the raw full
request path, which embeds every parameter unstripped, the
force-refresh flag included. -/
theorem claim_C3_amended :
    (∀ qs qs2 : Query,
      pyStrip ((queryGetFirst qs "search").getD "") =
        pyStrip ((queryGetFirst qs2 "search").getD "") →
      pyStrip ((queryGetFirst qs "url").getD "") =
        pyStrip ((queryGetFirst qs2 "url").getD "") →
      fast_meta_key qs = fast_meta_key qs2 ∧ meta_key qs = meta_key qs2) ∧
    (∀ qs : Query,
      download_cache_key qs = "download:/download?" ++ rawQueryString qs) := by
  constructor
  · intro qs qs2 hs hu
    unfold fast_meta_key meta_key
    rw [hs, hu]
    exact ⟨rfl, rfl⟩
  · intro qs
    rfl

/-- C3 (witness): the amended theorem applied to two concrete requests
that differ in parameter whitespace and in the force-refresh flag. -/
theorem claim_C3_witness :
    fast_meta_key [("search", " q "), ("url", "u"), ("latest", "1")] =
      fast_meta_key [("search", "q"), ("url", "u ")] :=
  (claim_C3_amended.1 _ _ (by decide) (by decide)).1

/-- C4 (counterexample): the claim requires one payload to carry both a
normalized duration and the classified formats, but `/api/all` — the
only route with both a `duration` and a `formats` field — returns the
*raw* numeric duration (here the JSON number `125`), not the
DurationNormalizer output `"PT125S"`. -/
theorem claim_C4_counterexample :
    (api_all_payload c4info).map (fun p => durationJson p.duration) =
      some (JVal.jnum 125) ∧
    (to_iso_duration (pyStrOfOptInt (some 125))).map JVal.jstr =
      some (JVal.jstr "PT125S") ∧
    (JVal.jnum 125 : JVal) ≠ JVal.jstr "PT125S" := by decide

/-- C4 (amended): the two halves hold on different routes — a
`/api/fast-meta` search payload's `duration` is `to_iso_duration` of the
first hit's raw duration string, and a `/api/all` payload's `formats`
list is exactly `build_formats_list` of the resolved record's raw
formats (order included); `/api/all`'s `duration` stays raw. -/
theorem claim_C4_amended :
    (∀ (vid : SearchHit) (rest : List SearchHit) (p : FastMetaPayload),
      fast_meta_search_compute (vid :: rest) = some (RouteResult.ok p) →
      to_iso_duration (vid.duration.getD "") = some p.duration) ∧
    (∀ (info : RawInfo) (p : AllPayload),
      api_all_payload info = some p → p.formats = build_formats_list info.formats) := by
  constructor
  · intro vid rest p h
    unfold fast_meta_search_compute at h
    dsimp only at h
    cases hd : to_iso_duration (vid.duration.getD "") with
    | none =>
        rw [hd] at h
        cases hth : hitThumb vid <;> rw [hth] at h <;> simp at h
    | some d =>
        cases hth : hitThumb vid with
        | none => rw [hd, hth] at h; simp at h
        | some th =>
            rw [hd, hth] at h
            simp only [Option.some.injEq, RouteResult.ok.injEq] at h
            subst h
            rfl
  · intro info p h
    unfold api_all_payload at h
    cases hm : info.related.mapM mkSuggestion with
    | none => rw [hm] at h; simp at h
    | some sugg =>
        rw [hm] at h
        simp only [Option.map_some', Option.some.injEq] at h
        subst h
        rfl

/-- C4 (witness): the amended theorem applied to a concrete hit and to
the empty info record. -/
theorem claim_C4_witness :
    to_iso_duration (c4hit.duration.getD "") = some c4fmPayload.duration ∧
    c4allPayload.formats = build_formats_list ({} : RawInfo).formats :=
  ⟨claim_C4_amended.1 c4hit [] c4fmPayload (by decide),
   claim_C4_amended.2 {} c4allPayload (by decide)⟩

/-- C5 (counterexample): `/api/audio` is a stream/format-listing
endpoint but performs no caching at all, refuting "every
stream/format-listing endpoint's response is cached with a fixed 5-hour
TTL". -/
theorem claim_C5_counterexample :
    isStreamRoute Route.audio = true ∧
    cachePolicy Route.audio = CachePolicy.uncached ∧
    CachePolicy.uncached ≠ CachePolicy.decoratorCached STREAM_TIMEOUT := by decide

/-- C5 (amended): non-stream routes either do not cache or `set` with
the default timeout `0` (infinite retention); among the stream routes
only `/download` is cached, with the fixed 5-hour TTL, while
`/api/audio` and `/api/video` are uncached; accordingly every entry the
meta handler writes carries timeout `0` and every entry the download
handler writes carries timeout `STREAM_TIMEOUT`. -/
theorem claim_C5_amended :
    (∀ r : Route, isStreamRoute r = false →
      cachePolicy r = CachePolicy.uncached ∨
        cachePolicy r = CachePolicy.manualSet 0) ∧
    cachePolicy Route.download = CachePolicy.decoratorCached 18000 ∧
    cachePolicy Route.audio = CachePolicy.uncached ∧
    cachePolicy Route.video = CachePolicy.uncached ∧
    (∀ (eng : Engine) (qs : Query) (c : CacheState MetaProjection) out,
      api_meta_handler eng qs c = some out →
      ∀ e ∈ out.2.1, e ∈ c ∨ e.2.2 = 0) ∧
    (∀ (eng : Engine) (qs : Query)
      (c : CacheState (RouteResult (List ClassifiedFormat))) out,
      download_handler eng qs c = some out →
      ∀ e ∈ out.2.1, e ∈ c ∨ e.2.2 = STREAM_TIMEOUT) := by
  refine ⟨?_, by decide, by decide, by decide, ?_, ?_⟩
  · intro r h
    cases r <;> simp_all [cachePolicy, isStreamRoute, CACHE_DEFAULT_TIMEOUT]
  · intro eng qs c out h e he
    unfold api_meta_handler at h
    dsimp only at h
    have hc1 : ∀ x : String × MetaProjection × Nat,
        x ∈ (if queryHas qs "latest" then cacheDelete c (meta_key qs) else c) →
          x ∈ c := by
      intro x hx
      split at hx
      · exact mem_cacheDelete _ _ _ hx
      · exact hx
    split at h
    · replace h := Option.some.inj h
      subst h
      exact Or.inl (hc1 e he)
    · split at h
      · replace h := Option.some.inj h
        subst h
        exact Or.inl (hc1 e he)
      · split at h
        · exact absurd h (by simp)
        · replace h := Option.some.inj h
          subst h
          exact Or.inl (hc1 e he)
        · replace h := Option.some.inj h
          subst h
          rcases mem_cacheSet _ _ _ _ _ he with h1 | h1
          · right
            rw [h1]
            rfl
          · exact Or.inl (hc1 e h1)
  · intro eng qs c out h e he
    unfold download_handler at h
    dsimp only at h
    split at h
    · replace h := Option.some.inj h
      subst h
      exact Or.inl he
    · split at h
      · replace h := Option.some.inj h
        subst h
        rcases mem_cacheSet _ _ _ _ _ he with h1 | h1
        · right
          rw [h1]
        · exact Or.inl h1
      · split at h
        · exact absurd h (by simp)
        · replace h := Option.some.inj h
          subst h
          rcases mem_cacheSet _ _ _ _ _ he with h1 | h1
          · right
            rw [h1]
          · exact Or.inl h1
        · replace h := Option.some.inj h
          subst h
          rcases mem_cacheSet _ _ _ _ _ he with h1 | h1
          · right
            rw [h1]
          · exact Or.inl h1

set_option synthInstance.maxSize 1024 in
/-- C5 (witness): the amended theorem applied to the uncached non-stream
route `/` and to concrete meta/download runs on the empty cache. -/
theorem claim_C5_witness :
    (cachePolicy Route.home = CachePolicy.uncached ∨
      cachePolicy Route.home = CachePolicy.manualSet 0) ∧
    ((meta_key c5qs, metaProject c5info, 0) ∈ ([] : CacheState MetaProjection) ∨
      ((meta_key c5qs, metaProject c5info, 0) : String × MetaProjection × Nat).2.2 = 0) ∧
    ((download_cache_key c5qs, RouteResult.ok ([] : List ClassifiedFormat),
        STREAM_TIMEOUT) ∈ ([] : CacheState (RouteResult (List ClassifiedFormat))) ∨
      ((download_cache_key c5qs, RouteResult.ok ([] : List ClassifiedFormat),
        STREAM_TIMEOUT) : String × RouteResult (List ClassifiedFormat) × Nat).2.2 =
        STREAM_TIMEOUT) :=
  ⟨claim_C5_amended.1 Route.home (by decide),
   claim_C5_amended.2.2.2.2.1 c5eng c5qs [] c5metaOut (by decide) _ (by decide),
   claim_C5_amended.2.2.2.2.2 c5eng c5qs [] c5dlOut (by decide) _ (by decide)⟩

/-- C6: the size formatter matches the claim's tier description on
every byte count, and the spec's table plus the boundary value
`10^9` (reported in the higher unit) evaluate as stated. -/
theorem claim_C6_size_formatter :
    (∀ n : Nat, format_size n = sizeFormatterSpec n) ∧
    format_size 999 = "999 B" ∧ format_size 1000 = "1.00 KB" ∧
    format_size 1500000 = "1.50 MB" ∧ format_size 2000000000 = "2.00 GB" ∧
    format_size 1000000000 = "1.00 GB" := by
  refine ⟨fun n => ?_, by decide, by decide, by decide, by decide, by decide⟩
  norm_num [format_size, sizeFormatterSpec]

/-- C7 (counterexample): `/download` reads its parameters unstripped,
so a whitespace-only `url` passes the guard: the engine *is* called and
the response is a 200, not the claimed 400-without-engine-call. -/
theorem claim_C7_counterexample :
    pyStrip " " = "" ∧
    (download_handler c7eng [("url", " ")] []).map
      (fun out => (respCode out.1, out.2.2)) = some (200, true) := by decide

/-- C7 (amended): the stripping routes (`/api/all`, `/api/fast-meta`,
`/api/meta`) answer 400 with no engine call when both parameters are
absent or whitespace-only; the raw routes (`/download`, `/api/audio`,
`/api/video`) do so only when both are absent or empty — a
whitespace-only parameter there proceeds to the engine. -/
theorem claim_C7_amended :
    (∀ (eng : Engine) (qs : Query) out,
      pyStrip ((queryGetFirst qs "search").getD "") = "" →
      pyStrip ((queryGetFirst qs "url").getD "") = "" →
      api_all_handler eng qs = some out →
      out = (RouteResult.err provideSearchUrlMsg 400, false)) ∧
    (∀ (w : FastMetaWorld) (qs : Query) (c : CacheState FastMetaPayload) out,
      pyStrip ((queryGetFirst qs "search").getD "") = "" →
      pyStrip ((queryGetFirst qs "url").getD "") = "" →
      cacheGet c (fast_meta_key qs) = none →
      api_fast_meta_handler w qs c = some out →
      out.1 = RouteResult.err provideSearchUrlMsg 400 ∧ out.2.2 = false) ∧
    (∀ (eng : Engine) (qs : Query) (c : CacheState MetaProjection) out,
      pyStrip ((queryGetFirst qs "search").getD "") = "" →
      pyStrip ((queryGetFirst qs "url").getD "") = "" →
      cacheGet c (meta_key qs) = none →
      api_meta_handler eng qs c = some out →
      out.1 = RouteResult.err provideSearchUrlMsg 400 ∧ out.2.2 = false) ∧
    (∀ (eng : Engine) (qs : Query)
      (c : CacheState (RouteResult (List ClassifiedFormat))) out,
      (queryGetFirst qs "url").getD "" = "" →
      (queryGetFirst qs "search").getD "" = "" →
      cacheGet c (download_cache_key qs) = none →
      download_handler eng qs c = some out →
      out.1 = RouteResult.err provideUrlSearchMsg 400 ∧ out.2.2 = false) ∧
    (∀ (eng : Engine) (qs : Query) out,
      (queryGetFirst qs "url").getD "" = "" →
      (queryGetFirst qs "search").getD "" = "" →
      api_audio_handler eng qs = some out →
      out = (RouteResult.err provideUrlSearchMsg 400, false)) ∧
    (∀ (eng : Engine) (qs : Query) out,
      (queryGetFirst qs "url").getD "" = "" →
      (queryGetFirst qs "search").getD "" = "" →
      api_video_handler eng qs = some out →
      out = (RouteResult.err provideUrlSearchMsg 400, false)) := by
  refine ⟨?_, ?_, ?_, ?_, ?_, ?_⟩
  · intro eng qs out hq hu h
    unfold api_all_handler at h
    dsimp only at h
    rw [hq, hu] at h
    simp at h
    exact h.symm
  · intro w qs c out hq hu hc h
    unfold api_fast_meta_handler at h
    dsimp only at h
    rw [hq, hu] at h
    by_cases hl : queryHas qs "latest" = true
    · simp [hl, cacheGet_cacheDelete_self] at h
      rw [← h]
      exact ⟨rfl, rfl⟩
    · simp [hl, hc] at h
      rw [← h]
      exact ⟨rfl, rfl⟩
  · intro eng qs c out hq hu hc h
    unfold api_meta_handler at h
    dsimp only at h
    rw [hq, hu] at h
    by_cases hl : queryHas qs "latest" = true
    · simp [hl, cacheGet_cacheDelete_self] at h
      rw [← h]
      exact ⟨rfl, rfl⟩
    · simp [hl, hc] at h
      rw [← h]
      exact ⟨rfl, rfl⟩
  · intro eng qs c out hu hs hc h
    unfold download_handler at h
    dsimp only at h
    rw [hu, hs, hc] at h
    simp at h
    rw [← h]
    exact ⟨rfl, rfl⟩
  · intro eng qs out hu hs h
    unfold api_audio_handler at h
    dsimp only at h
    rw [hu, hs] at h
    simp at h
    exact h.symm
  · intro eng qs out hu hs h
    unfold api_video_handler at h
    dsimp only at h
    rw [hu, hs] at h
    simp at h
    exact h.symm

set_option synthInstance.maxSize 1024 in
/-- C7 (witness): the amended theorem applied to a whitespace-only
`/api/all` request and to the empty `/download` request. -/
theorem claim_C7_witness :
    pyStrip ((queryGetFirst [("search", " ")] "search").getD "") = "" ∧
    ((RouteResult.err provideSearchUrlMsg 400 : RouteResult AllPayload), false) =
      (RouteResult.err provideSearchUrlMsg 400, false) ∧
    c7dlOut.1 = RouteResult.err provideUrlSearchMsg 400 ∧ c7dlOut.2.2 = false :=
  ⟨by decide,
   claim_C7_amended.1 c7eng [("search", " ")] _ (by decide) (by decide) (by decide),
   claim_C7_amended.2.2.2.1 c7eng [] [] c7dlOut (by decide) (by decide) (by decide)
     (by decide)⟩

/-- C8: in search mode a result set with zero entries yields the
`No search results` error with status 404 and no record, while a
nonempty one resolves to its first entry; `api_fast_meta`'s search
branch likewise answers `No results`/404 on an empty hit list. -/
theorem claim_C8_search_dispatch :
    (∀ (eng : Engine) (u : Option String) (q : String) (data : SearchData),
      q ≠ "" → eng.searchData q = some data →
      (data.entries.getD [] = [] →
        extract_info_model eng u (some q) =
          some (ExtractOut.err "No search results" 404)) ∧
      (∀ e es, data.entries.getD [] = e :: es →
        extract_info_model eng u (some q) = some (ExtractOut.ok e))) ∧
    fast_meta_search_compute [] = some (RouteResult.err "No results" 404) := by
  constructor
  · intro eng u q data hq hdata
    constructor
    · intro hl
      simp [extract_info_model, hq, hdata, hl]
    · intro e es hl
      simp [extract_info_model, hq, hdata, hl]
  · rfl

/-- C8 (witness): the dispatch theorem applied to a zero-hit engine and
to a one-hit engine. -/
theorem claim_C8_witness :
    ("q" : String) ≠ "" ∧
    extract_info_model c8engEmpty none (some "q") =
      some (ExtractOut.err "No search results" 404) ∧
    extract_info_model c8engHit none (some "q") =
      some (ExtractOut.ok {}) :=
  ⟨by decide,
   (claim_C8_search_dispatch.1 c8engEmpty none "q" { entries := some [] }
     (by decide) rfl).1 rfl,
   (claim_C8_search_dispatch.1 c8engHit none "q" { entries := some [({} : RawInfo)] }
     (by decide) rfl).2 {} [] rfl⟩

/-- C9 (counterexample): on `/download` the force-refresh flag merely
changes the cache key: the very same force-refresh request, repeated
right after its own successful store, is served from cache without
recomputation, and the entry of the flag-less request survives a
force-refresh request untouched. -/
theorem claim_C9_counterexample :
    queryHas c9qs "latest" = true ∧
    (download_handler c9eng c9qs []).map (fun out => out.2.2) = some true ∧
    (download_handler c9eng c9qs c9cache1).map (fun out => out.2.2) = some false ∧
    (download_handler c9eng c9qs c9cache0).map
      (fun out => cacheGet out.2.1 (download_cache_key c9qs0)) =
      some (some (RouteResult.ok [])) := by decide

/-- C9 (amended): on `/api/meta` a force-refresh request never serves a
pre-existing entry (it either recomputes or fails the 400 guard) and a
recomputed payload is stored under the key; on `/download` the handler
never invalidates anything — every key other than the request's own
keeps its entry. -/
theorem claim_C9_amended :
    (∀ (eng : Engine) (qs : Query) (c : CacheState MetaProjection) out,
      queryHas qs "latest" = true →
      api_meta_handler eng qs c = some out →
      (out.2.2 = true ∨ out.1 = RouteResult.err provideSearchUrlMsg 400) ∧
      (∀ d, out.1 = RouteResult.ok d → out.2.2 = true →
        cacheGet out.2.1 (meta_key qs) = some d)) ∧
    (∀ (eng : Engine) (qs : Query)
      (c : CacheState (RouteResult (List ClassifiedFormat))) out,
      download_handler eng qs c = some out →
      ∀ k, k ≠ download_cache_key qs → cacheGet out.2.1 k = cacheGet c k) := by
  constructor
  · intro eng qs c out hl h
    unfold api_meta_handler at h
    dsimp only at h
    simp only [hl, if_true, cacheGet_cacheDelete_self] at h
    split at h
    · replace h := Option.some.inj h
      subst h
      refine ⟨Or.inr rfl, ?_⟩
      intro d hd hb
      exact absurd hd (by simp)
    · split at h
      · exact absurd h (by simp)
      · replace h := Option.some.inj h
        subst h
        refine ⟨Or.inl rfl, ?_⟩
        intro d hd hb
        exact absurd hd (by simp)
      · replace h := Option.some.inj h
        subst h
        refine ⟨Or.inl rfl, ?_⟩
        intro d hd hb
        simp only [RouteResult.ok.injEq] at hd
        rw [← hd]
        exact cacheGet_cacheSet_self _ _ _ _
  · intro eng qs c out h k hk
    unfold download_handler at h
    dsimp only at h
    split at h
    · replace h := Option.some.inj h
      subst h
      rfl
    · split at h
      · replace h := Option.some.inj h
        subst h
        exact cacheGet_cacheSet_ne _ _ _ _ _ hk
      · split at h
        · exact absurd h (by simp)
        · replace h := Option.some.inj h
          subst h
          exact cacheGet_cacheSet_ne _ _ _ _ _ hk
        · replace h := Option.some.inj h
          subst h
          exact cacheGet_cacheSet_ne _ _ _ _ _ hk

set_option synthInstance.maxSize 1024 in
/-- C9 (witness): the amended theorem applied to a concrete
force-refresh `/api/meta` request arriving right after a successful
store of the same key. -/
theorem claim_C9_witness :
    queryHas c9metaQs "latest" = true ∧
    (c9metaOut.2.2 = true ∨ c9metaOut.1 = RouteResult.err provideSearchUrlMsg 400) ∧
    cacheGet c9metaOut.2.1 (meta_key c9metaQs) = some (metaProject c9info) :=
  ⟨by decide,
   (claim_C9_amended.1 c9eng c9metaQs c9metaCache c9metaOut (by decide) (by decide)).1,
   (claim_C9_amended.1 c9eng c9metaQs c9metaCache c9metaOut (by decide) (by decide)).2
     (metaProject c9info) (by decide) (by decide)⟩

/-- C10 (counterexample): on the cached `/api/fast-meta` route the url
parameter is *not* ignored entirely — it is part of the cache key — so
the same search with and without a url can return different (cached)
responses. -/
theorem claim_C10_counterexample :
    (api_fast_meta_handler c10w c10qs1 c10cache).map (fun out => out.1) =
      some (RouteResult.ok c10p1) ∧
    (api_fast_meta_handler c10w c10qs2 c10cache).map (fun out => out.1) =
      some (RouteResult.ok c10p2) ∧
    (RouteResult.ok c10p1 : RouteResult FastMetaPayload) ≠ RouteResult.ok c10p2 := by
  decide

/-- C10 (amended): with a nonempty search query the *compute* paths
ignore the url entirely — `extract_info` search mode, the fast-meta
compute body, and the whole (uncached) `/api/all` response are
url-independent — but on the cached routes the url still enters the
cache key, so cached responses may differ. -/
theorem claim_C10_amended :
    (∀ (eng : Engine) (u1 u2 : Option String) (q : String), q ≠ "" →
      extract_info_model eng u1 (some q) = extract_info_model eng u2 (some q)) ∧
    (∀ (w : FastMetaWorld) (q u1 u2 : String), q ≠ "" →
      fast_meta_compute w q u1 = fast_meta_compute w q u2) ∧
    (∀ (eng : Engine) (qs1 qs2 : Query),
      pyStrip ((queryGetFirst qs1 "search").getD "") =
        pyStrip ((queryGetFirst qs2 "search").getD "") →
      pyStrip ((queryGetFirst qs1 "search").getD "") ≠ "" →
      api_all_handler eng qs1 = api_all_handler eng qs2) := by
  refine ⟨?_, ?_, ?_⟩
  · intro eng u1 u2 q hq
    simp [extract_info_model, hq]
  · intro w q u1 u2 hq
    simp [fast_meta_compute, hq]
  · intro eng qs1 qs2 hs hq
    unfold api_all_handler
    dsimp only
    rw [← hs]
    rw [if_neg (fun hand => hq hand.1), if_neg (fun hand => hq hand.1)]
    have hpq : pyOrNone (pyStrip ((queryGetFirst qs1 "search").getD "")) =
        some (pyStrip ((queryGetFirst qs1 "search").getD "")) := by
      unfold pyOrNone
      rw [if_neg hq]
    rw [hpq]
    have hext := fun v1 v2 =>
      (by simp [extract_info_model, hq] :
        extract_info_model eng v1
            (some (pyStrip ((queryGetFirst qs1 "search").getD ""))) =
          extract_info_model eng v2
            (some (pyStrip ((queryGetFirst qs1 "search").getD ""))))
    rw [hext (pyOrNone (pyStrip ((queryGetFirst qs1 "url").getD "")))
      (pyOrNone (pyStrip ((queryGetFirst qs2 "url").getD "")))]

/-- C10 (witness): the amended theorem applied to a concrete search
with and without a url parameter. -/
theorem claim_C10_witness :
    api_all_handler c10weng [("search", "q"), ("url", "u")] =
      api_all_handler c10weng [("search", "q")] ∧
    fast_meta_compute c10w "q" "u" = fast_meta_compute c10w "q" "" :=
  ⟨claim_C10_amended.2.2 c10weng _ _ (by decide) (by decide),
   claim_C10_amended.2.1 c10w "q" "u" "" (by decide)⟩

end YtApi
